import Mathlib

/-!
Shallow embedding of the MedChain front-end (React/TypeScript) for
verification of its specification claims.

Sources embedded:
- `src/types.ts` — data model (UserRole, User, Treatment, MedicalFile, PatientProfile);
- `src/unnamed/part_000` (services/api) — API gateway (`handleApiResponse`, `apiRequest`,
  the `authApi` operations, `authUtils` token store);
- `src/components/AuthScreen.tsx` — auth flow controller (`handleAction`,
  `handleVerifyOTP`, `handleResendOTP`);
- `src/App.tsx` — session bootstrap (`initializeAuth`) and `deleteTreatment`;
- `src/components/Dashboard.tsx` — patient search (`handleSearch`) and the
  attachment file-type label derivation (`handleFileChange`).

React state updates are modeled by explicit state records; each async handler
is a pure function from the pre-state and the outcome of the network call it
makes (an `Except String` value mirroring promise resolution/rejection) to the
post-state, together with flags recording which network calls were issued.
-/

/-- JavaScript truthiness fallback `s || fb` on strings: the empty string is
falsy, every other string is truthy. -/
def jsOrStr (s fb : String) : String :=
  if s = "" then fb else s

/-- JavaScript `v?.x || fb` pattern on an optional string: `none` and the
empty string both fall back. -/
def jsOrOptStr (v : Option String) (fb : String) : String :=
  match v with
  | none => fb
  | some s => jsOrStr s fb

/-- `UserRole` enum from `src/types.ts`. -/
inductive UserRole where
  | DOCTOR
  | PATIENT
  | GUEST
deriving DecidableEq, Repr

/-- `MedicalFile` interface from `src/types.ts`. -/
structure MedicalFile where
  id : String
  fileName : String
  fileType : String
  fileUrl : String
  uploadedAt : String
deriving DecidableEq, Repr

/-- `Treatment` interface from `src/types.ts`. -/
structure Treatment where
  id : String
  patientId : String
  doctorId : String
  doctorName : String
  timestamp : String
  diagnosis : String
  medication : String
  notes : String
  files : Option (List MedicalFile)
deriving DecidableEq, Repr

/-- `User` interface from `src/types.ts` (`cnic` and `isVerified` are optional). -/
structure User where
  id : String
  role : UserRole
  name : String
  email : String
  cnic : Option String
  isVerified : Option Bool
deriving DecidableEq, Repr

/-- `PatientProfile` from `src/types.ts`: a `User` extended with
`medicalHistory` and `treatments` (flattened here). -/
structure PatientProfile where
  id : String
  role : UserRole
  name : String
  email : String
  cnic : Option String
  isVerified : Option Bool
  medicalHistory : List String
  treatments : List Treatment
deriving DecidableEq, Repr

/-- `MOCK_DOCTOR` from `src/constants` (`src/unnamed/part_002`). -/
def MOCK_DOCTOR : User :=
  { id := "doc-001", role := UserRole.DOCTOR, name := "Dr. Sarah Mitchell",
    email := "sarah.m@hospital.com", cnic := none, isVerified := none }

/-- CNIC validator from `src/components/AuthScreen.tsx` line 111:
the regular expression test `/^\d{5}-\d{7}-\d{1}$/.test(cnic)`, embedded as a
structural match on the character list: exactly 15 characters, hyphens at
positions 5 and 13, digits everywhere else. -/
def cnicRegexTest (s : String) : Bool :=
  match s.data with
  | [d1, d2, d3, d4, d5, h1, d6, d7, d8, d9, d10, d11, d12, h2, d13] =>
    d1.isDigit && d2.isDigit && d3.isDigit && d4.isDigit && d5.isDigit &&
    (h1 = '-') && d6.isDigit && d7.isDigit && d8.isDigit && d9.isDigit &&
    d10.isDigit && d11.isDigit && d12.isDigit && (h2 = '-') && d13.isDigit
  | _ => false

/-- Specification-side reading of the national-id format, following the
spec text: 5 digits, a hyphen, 7 digits, a hyphen, 1 digit. -/
def cnicSpecFormat (s : String) : Prop :=
  ∃ (p q : List Char) (c : Char),
    p.length = 5 ∧ q.length = 7 ∧
    (∀ x ∈ p, x.isDigit = true) ∧ (∀ x ∈ q, x.isDigit = true) ∧
    c.isDigit = true ∧
    s.data = p ++ '-' :: (q ++ ['-', c])

/-- Uniform response envelope from the API gateway (`src/unnamed/part_000`):
`ApiResponse<T> = { success, message?, data?, errors? }`. -/
structure ApiResponse (T : Type) where
  success : Bool
  message : Option String := none
  data : Option T := none
  errors : Option (List String) := none
deriving DecidableEq, Repr

/-- Outcome of one `fetch` exchange as seen by `apiRequest`: either an HTTP
response (with its `ok` flag and parsed JSON body) or a transport failure in
which `fetch` rejects with a runtime-supplied error message (for example the
browser's generic "Failed to fetch"); no server-supplied text is involved in
the latter. -/
inductive FetchOutcome (T : Type) where
  | response (ok : Bool) (body : ApiResponse T)
  | networkFailure (msg : String)
deriving DecidableEq, Repr

/-- `handleApiResponse` from `src/unnamed/part_000` lines 74-82: on a
non-`ok` HTTP status it throws `new Error(data.message || 'An error
occurred')`; otherwise it returns the parsed body. -/
def handleApiResponse {T : Type} (ok : Bool) (body : ApiResponse T) :
    Except String (ApiResponse T) :=
  if ok = false then Except.error (jsOrOptStr body.message "An error occurred")
  else Except.ok body

/-- `apiRequest` from `src/unnamed/part_000` lines 85-116: performs the fetch
and normalizes the result through `handleApiResponse`; any error (thrown by
`handleApiResponse` or by `fetch` itself) is logged and rethrown unchanged. -/
def apiRequest {T : Type} (outcome : FetchOutcome T) :
    Except String (ApiResponse T) :=
  match outcome with
  | FetchOutcome.response ok body => handleApiResponse ok body
  | FetchOutcome.networkFailure msg => Except.error msg

/-- Server user record in `SignupResponse` (`src/unnamed/part_000`). -/
structure SignupUser where
  id : String
  email : String
  cnic : String
  isVerified : Bool
deriving DecidableEq, Repr

/-- `SignupResponse` from `src/unnamed/part_000`. -/
structure SignupResponse where
  user : SignupUser
deriving DecidableEq, Repr

/-- Server user record in `VerifyOtpResponse` (`src/unnamed/part_000`). -/
structure VerifyOtpUser where
  id : String
  email : String
  cnic : String
  isVerified : Bool
  role : String
deriving DecidableEq, Repr

/-- `VerifyOtpResponse` from `src/unnamed/part_000`. -/
structure VerifyOtpResponse where
  user : VerifyOtpUser
  token : String
deriving DecidableEq, Repr

/-- Server user record in `LoginResponse` (`src/unnamed/part_000`). -/
structure LoginUser where
  id : String
  email : String
  cnic : Option String
  isVerified : Bool
  role : String
deriving DecidableEq, Repr

/-- `LoginResponse` from `src/unnamed/part_000`. -/
structure LoginResponse where
  user : LoginUser
  token : String
deriving DecidableEq, Repr

/-- `UserProfile` from `src/unnamed/part_000`, extended with the embedded
`treatments`/`medicalHistory` collections that `src/App.tsx` reads from the
profile payload via `(user as any)` (absent for older tokens, hence optional). -/
structure UserProfile where
  id : String
  role : String
  name : String
  email : String
  cnic : Option String
  isVerified : Bool
  treatments : Option (List Treatment)
  medicalHistory : Option (List String)
deriving DecidableEq, Repr

/-- Payload of `getProfile` (`src/unnamed/part_000` line 153). -/
structure ProfileData where
  user : UserProfile
deriving DecidableEq, Repr

/-- Payload of `getPatients` (`src/unnamed/part_000` line 158). -/
structure PatientsData where
  patients : List PatientProfile
deriving DecidableEq, Repr

namespace authApi

/-- `authApi.signup`: POST /auth/signup, delegating to `apiRequest`. -/
def signup (outcome : FetchOutcome SignupResponse) :
    Except String (ApiResponse SignupResponse) :=
  apiRequest outcome

/-- `authApi.verifyOtp`: POST /auth/verify-otp, delegating to `apiRequest`. -/
def verifyOtp (outcome : FetchOutcome VerifyOtpResponse) :
    Except String (ApiResponse VerifyOtpResponse) :=
  apiRequest outcome

/-- `authApi.resendOtp`: POST /auth/resend-otp, delegating to `apiRequest`. -/
def resendOtp (outcome : FetchOutcome Unit) :
    Except String (ApiResponse Unit) :=
  apiRequest outcome

/-- `authApi.login`: POST /auth/login, delegating to `apiRequest`. -/
def login (outcome : FetchOutcome LoginResponse) :
    Except String (ApiResponse LoginResponse) :=
  apiRequest outcome

/-- `authApi.getProfile`: GET /auth/profile, delegating to `apiRequest`. -/
def getProfile (outcome : FetchOutcome ProfileData) :
    Except String (ApiResponse ProfileData) :=
  apiRequest outcome

/-- `authApi.getPatients`: GET /auth/patients, delegating to `apiRequest`. -/
def getPatients (outcome : FetchOutcome PatientsData) :
    Except String (ApiResponse PatientsData) :=
  apiRequest outcome

/-- `authApi.addTreatment`: POST /auth/treatments, delegating to `apiRequest`. -/
def addTreatment (outcome : FetchOutcome Unit) :
    Except String (ApiResponse Unit) :=
  apiRequest outcome

/-- `authApi.deleteTreatment`: DELETE /auth/treatments/:id, delegating to
`apiRequest`. -/
def deleteTreatment (outcome : FetchOutcome Unit) :
    Except String (ApiResponse Unit) :=
  apiRequest outcome

end authApi

/-- The `authMode` toggle of `src/components/AuthScreen.tsx` line 13. -/
inductive AuthMode where
  | signin
  | signup
deriving DecidableEq, Repr

/-- The `view` state of `src/components/AuthScreen.tsx` line 14. -/
inductive AuthView where
  | roleSelection
  | form
  | otpVerification
deriving DecidableEq, Repr

/-- The React state of `AuthScreen` (`src/components/AuthScreen.tsx` lines
12-33) together with the two externally visible effects the component can
produce: the token persisted through `authUtils.setToken` (`storedToken`) and
the user handed to the `onLoginSuccess` callback (`yieldedUser`). -/
structure AuthState where
  selectedRole : Option UserRole
  authMode : AuthMode
  view : AuthView
  name : String
  email : String
  password : String
  cnic : String
  otpInput : String
  otpEmail : String
  error : String
  successMsg : String
  resendCooldown : Nat
  isLoading : Bool
  isOtpLoading : Bool
  isResendLoading : Bool
  storedToken : Option String
  yieldedUser : Option User
deriving DecidableEq, Repr

/-- Result of one run of `handleAction`: the post-state plus flags recording
whether `authApi.login` or `authApi.signup` was invoked. -/
structure ActionResult where
  state : AuthState
  calledLogin : Bool
  calledSignup : Bool
deriving DecidableEq, Repr

/-- `handleAction` from `src/components/AuthScreen.tsx` lines 77-143, run to
completion. The outcomes of the `login`/`signup` calls are passed in as
`Except` values (consulted only if the corresponding call is actually made);
`Except.error msg` models a rejected promise whose error message is `msg`,
which is what `apiRequest` produces for HTTP and transport failures. -/
def handleAction (s : AuthState)
    (loginResult : Except String (ApiResponse LoginResponse))
    (signupResult : Except String (ApiResponse SignupResponse)) : ActionResult :=
  match s.selectedRole with
  | none => ActionResult.mk s false false
  | some _ =>
    let s1 := { s with error := "", successMsg := "" }
    match s.authMode with
    | AuthMode.signin =>
      match loginResult with
      | Except.ok resp =>
        match resp.data, resp.success with
        | some d, true =>
          let u : User :=
            { id := d.user.id,
              role := if d.user.role = "patient" then UserRole.PATIENT
                      else UserRole.DOCTOR,
              name := "", email := d.user.email, cnic := d.user.cnic,
              isVerified := some d.user.isVerified }
          ActionResult.mk
            { s1 with
                storedToken := some d.token, yieldedUser := some u,
                isLoading := false } true false
        | _, _ => ActionResult.mk { s1 with isLoading := false } true false
      | Except.error msg =>
        ActionResult.mk
          { s1 with
              error := jsOrStr msg "An error occurred. Please try again.",
              isLoading := false } true false
    | AuthMode.signup =>
      if s.name = "" ∨ s.email = "" ∨ s.cnic = "" ∨ s.password = "" then
        ActionResult.mk
          { s1 with error := "All fields are required.", isLoading := false }
          false false
      else if cnicRegexTest s.cnic = false then
        ActionResult.mk
          { s1 with
              error := "CNIC must be in format XXXXX-XXXXXXX-X",
              isLoading := false } false false
      else if s.password.length < 6 then
        ActionResult.mk
          { s1 with
              error := "Password must be at least 6 characters long.",
              isLoading := false } false false
      else
        match signupResult with
        | Except.ok resp =>
          if resp.success then
            ActionResult.mk
              { s1 with
                  otpEmail := s.email, view := AuthView.otpVerification,
                  resendCooldown := 300, isLoading := false } false true
          else ActionResult.mk { s1 with isLoading := false } false true
        | Except.error msg =>
          ActionResult.mk
            { s1 with
                error := jsOrStr msg "An error occurred. Please try again.",
                isLoading := false } false true

/-- `handleVerifyOTP` from `src/components/AuthScreen.tsx` lines 145-170, run
to completion; the boolean records whether `authApi.verifyOtp` was invoked. -/
def handleVerifyOTP (s : AuthState)
    (result : Except String (ApiResponse VerifyOtpResponse)) :
    AuthState × Bool :=
  if s.otpEmail = "" ∨ s.otpInput.length ≠ 6 ∨ s.selectedRole = none then
    (s, false)
  else
    let s1 := { s with error := "" }
    match result with
    | Except.ok resp =>
      match resp.data, resp.success with
      | some _, true =>
        ({ s1 with
            authMode := AuthMode.signin, view := AuthView.form,
            otpInput := "", otpEmail := "",
            successMsg := "Account verified successfully. Please sign in to continue.",
            isOtpLoading := false }, true)
      | _, _ => ({ s1 with isOtpLoading := false }, true)
    | Except.error msg =>
      ({ s1 with
          error := jsOrStr msg "Verification failed. Please try again.",
          isOtpLoading := false }, true)

/-- `handleResendOTP` from `src/components/AuthScreen.tsx` lines 50-68, run
to completion; the boolean records whether `authApi.resendOtp` was invoked. -/
def handleResendOTP (s : AuthState) (result : Except String (ApiResponse Unit)) :
    AuthState × Bool :=
  if s.otpEmail = "" ∨ 0 < s.resendCooldown then
    (s, false)
  else
    let s1 := { s with error := "" }
    match result with
    | Except.ok resp =>
      if resp.success then
        ({ s1 with
            resendCooldown := 120, otpInput := "", error := "",
            isResendLoading := false }, true)
      else ({ s1 with isResendLoading := false }, true)
    | Except.error msg =>
      ({ s1 with
          error := jsOrStr msg "Failed to resend code. Please try again.",
          isResendLoading := false }, true)

/-- The React state of `App` (`src/App.tsx` lines 12-15) together with the
session-store content (`authUtils` token in localStorage) and the list of
`alert` messages shown to the user (the only user-facing error channel App
has; `console.error` logging is not user-facing and is not modeled). -/
structure AppState where
  currentUser : Option User
  patients : List PatientProfile
  doctors : List User
  token : Option String
  isLoading : Bool
  alerts : List String
deriving DecidableEq, Repr

/-- Initial `App` state: no user, no patients, the mock doctor, and whatever
token localStorage holds. -/
def initialAppState (token : Option String) : AppState :=
  { currentUser := none, patients := [], doctors := [MOCK_DOCTOR],
    token := token, isLoading := true, alerts := [] }

/-- `initializeAuth` from `src/App.tsx` lines 18-66, run to completion: reads
the stored token; when present, consults the `getProfile` outcome; on a
rejected profile call the token is removed and nothing else happens; on
success the current user is reconstructed and role-appropriate data loaded
(`getPatients` outcome for doctors, the embedded profile collections for
patients); `isLoading` always ends false. -/
def initializeAuth (s : AppState)
    (profileResult : Except String (ApiResponse ProfileData))
    (patientsResult : Except String (ApiResponse PatientsData)) : AppState :=
  match s.token with
  | none => { s with isLoading := false }
  | some _ =>
    match profileResult with
    | Except.error _ => { s with token := none, isLoading := false }
    | Except.ok resp =>
      match resp.data, resp.success with
      | some d, true =>
        let u := d.user
        let cu : User :=
          { id := u.id,
            role := if u.role = "patient" then UserRole.PATIENT
                    else UserRole.DOCTOR,
            name := jsOrStr u.name u.email, email := u.email, cnic := u.cnic,
            isVerified := some u.isVerified }
        let s1 := { s with currentUser := some cu }
        if u.role = "doctor" then
          match patientsResult with
          | Except.ok pr =>
            match pr.data, pr.success with
            | some pd, true =>
              { s1 with patients := pd.patients, isLoading := false }
            | _, _ => { s1 with isLoading := false }
          | Except.error _ => { s1 with isLoading := false }
        else if u.role = "patient" then
          { s1 with
              patients := [{
                id := u.id, role := UserRole.PATIENT,
                name := u.name, email := u.email, cnic := u.cnic,
                isVerified := some u.isVerified,
                medicalHistory := u.medicalHistory.getD [],
                treatments := u.treatments.getD [] }],
              isLoading := false }
        else { s1 with isLoading := false }
      | _, _ => { s with isLoading := false }

/-- The per-patient update performed by `deleteTreatment` on server
acknowledgement (`src/App.tsx` lines 151-156): the patient with the given id
has every treatment carrying the deleted id filtered out; all other patients
are returned unchanged. -/
def updatePatient (patientId treatmentId : String) (p : PatientProfile) :
    PatientProfile :=
  if p.id = patientId then
    { p with treatments := p.treatments.filter (fun t => t.id != treatmentId) }
  else p

/-- `deleteTreatment` from `src/App.tsx` lines 143-162, run to completion;
the boolean records whether `authApi.deleteTreatment` was invoked. Only a
patient user reaches the network call; on `success` the local patient list is
filtered, on a rejected call an alert is shown. -/
def deleteTreatment (s : AppState) (patientId treatmentId : String)
    (result : Except String (ApiResponse Unit)) : AppState × Bool :=
  match s.currentUser with
  | none => (s, false)
  | some u =>
    if u.role ≠ UserRole.PATIENT then (s, false)
    else
      match result with
      | Except.ok resp =>
        if resp.success then
          ({ s with
              patients := s.patients.map (fun p =>
                if p.id = patientId then
                  { p with
                      treatments := p.treatments.filter
                        (fun t => t.id != treatmentId) }
                else p) }, true)
        else (s, true)
      | Except.error _ =>
        ({ s with
            alerts := s.alerts ++ ["Failed to delete record. Please try again."] },
          true)

/-- JavaScript hyphen removal, the global regex replace of the hyphen
character by the empty string (`src/components/Dashboard.tsx` line 96). -/
def replaceHyphens (s : String) : String :=
  String.mk (s.data.filter (fun c => ¬ (c = '-')))

/-- The match predicate of the doctor's patient search
(`src/components/Dashboard.tsx` line 96): the stored `cnic` equals the
trimmed query exactly, or equals it after removing hyphens from both sides;
a patient without a `cnic` never matches. -/
def cnicMatches (q : String) (p : PatientProfile) : Bool :=
  p.cnic == some q || p.cnic.map replaceHyphens == some (replaceHyphens q)

/-- JavaScript `String.prototype.trim()`: strip leading and trailing
whitespace, modeled structurally on the character list. -/
def jsTrim (s : String) : String :=
  String.mk
    (((s.data.dropWhile Char.isWhitespace).reverse.dropWhile
        Char.isWhitespace).reverse)

/-- The search-related React state of `Dashboard`
(`src/components/Dashboard.tsx` lines 15-19). -/
structure DashboardSearchState where
  selectedPatientId : Option String
  searchCnic : String
  searchError : String
deriving DecidableEq, Repr

/-- `handleSearch` from `src/components/Dashboard.tsx` lines 90-104: an
empty/whitespace-only query yields the empty-query message; otherwise the
first roster entry matching the trimmed query (exactly or hyphen-insensitively)
is selected and the error cleared, and a query matching nothing yields the
not-found message. -/
def handleSearch (patients : List PatientProfile) (s : DashboardSearchState) :
    DashboardSearchState :=
  if jsTrim s.searchCnic = "" then
    { s with searchError := "Please enter a CNIC number" }
  else
    match patients.find? (cnicMatches (jsTrim s.searchCnic)) with
    | some p => { s with searchError := "", selectedPatientId := some p.id }
    | none =>
      { s with
          searchError := "No patient found with this CNIC. Please check and try again." }

/-- JavaScript `fileName.split('.')` with a single-character separator
(`src/components/Dashboard.tsx` line 58), on the character list: splitting
the empty string gives one empty segment, and every '.' starts a new
segment. -/
def splitDot : List Char → List (List Char)
  | [] => [[]]
  | c :: rest =>
    match splitDot rest with
    | [] => [[]]
    | seg :: segs =>
      if c = '.' then [] :: seg :: segs else (c :: seg) :: segs

/-- JavaScript `Array.prototype.pop()` on the result of the split: the text
after the last '.' of the file name (the whole name when it has no '.'). -/
def lastSegment (s : String) : String :=
  String.mk ((splitDot s.data).getLastD [])

/-- JavaScript `String.prototype.toUpperCase()` (ASCII behaviour). -/
def toUpperCase (s : String) : String :=
  String.mk (s.data.map Char.toUpper)

/-- The derived `fileType` label of `handleFileChange`
(`src/components/Dashboard.tsx` line 58):
`file.name.split('.').pop()?.toUpperCase() || 'UNKNOWN'`. The split of a
string is never empty, so `pop()` always yields a string and the `||`
fallback fires exactly when the uppercased last segment is the empty
string. -/
def fileTypeLabel (fileName : String) : String :=
  let up := toUpperCase (lastSegment fileName)
  if up = "" then "UNKNOWN" else up

/-- A sign-up form state with all validations satisfiable, used to
instantiate the theorems below. -/
def sampleSignupState : AuthState :=
  { selectedRole := some UserRole.PATIENT, authMode := AuthMode.signup,
    view := AuthView.form, name := "Ali Khan", email := "ali@example.com",
    password := "secret1", cnic := "42101-1234567-1", otpInput := "",
    otpEmail := "", error := "", successMsg := "", resendCooldown := 0,
    isLoading := false, isOtpLoading := false, isResendLoading := false,
    storedToken := none, yieldedUser := none }

/-- An OTP-verification state with a 6-digit code entered and an elapsed
cooldown. -/
def sampleOtpState : AuthState :=
  { sampleSignupState with
      view := AuthView.otpVerification, otpEmail := "ali@example.com",
      otpInput := "123456", resendCooldown := 0 }

/-- A successful verify-otp response body. -/
def sampleVerifyResp : ApiResponse VerifyOtpResponse :=
  { success := true,
    data := some
      { user := {
          id := "u1", email := "ali@example.com",
          cnic := "42101-1234567-1", isVerified := true, role := "patient" },
        token := "tok-1" } }

/-- A successful signup response body. -/
def sampleSignupResp : ApiResponse SignupResponse :=
  { success := true,
    data := some
      { user := {
          id := "u1", email := "ali@example.com",
          cnic := "42101-1234567-1", isVerified := false } } }

/-- A bare successful acknowledgement body. -/
def sampleOkUnit : ApiResponse Unit :=
  { success := true }

/-- A sample treatment record. -/
def sampleTreatment1 : Treatment :=
  { id := "t1", patientId := "p1", doctorId := "doc-001",
    doctorName := "Dr. Sarah Mitchell", timestamp := "2024-01-01",
    diagnosis := "Flu", medication := "Rest", notes := "", files := none }

/-- A second sample treatment record. -/
def sampleTreatment2 : Treatment :=
  { sampleTreatment1 with id := "t2" }

/-- A sample patient profile owning two treatments. -/
def samplePatient1 : PatientProfile :=
  { id := "p1", role := UserRole.PATIENT, name := "Ali Khan",
    email := "ali@example.com", cnic := some "42101-1234567-1",
    isVerified := some true, medicalHistory := [],
    treatments := [sampleTreatment1, sampleTreatment2] }

/-- A second sample patient whose stored cnic carries a hyphen. -/
def samplePatient2 : PatientProfile :=
  { samplePatient1 with
      id := "p2", name := "Sara", cnic := some "35-1234567",
      treatments := [sampleTreatment1] }

/-- The sample patient as a logged-in user. -/
def samplePatientUser : User :=
  { id := "p1", role := UserRole.PATIENT, name := "Ali Khan",
    email := "ali@example.com", cnic := some "42101-1234567-1",
    isVerified := some true }

/-- An app state with a logged-in patient and a two-patient roster. -/
def sampleAppState : AppState :=
  { currentUser := some samplePatientUser,
    patients := [samplePatient1, samplePatient2], doctors := [MOCK_DOCTOR],
    token := some "tok-1", isLoading := false, alerts := [] }

lemma length_five_shape {α : Type} (p : List α) (h : p.length = 5) :
    ∃ a b c d e, p = [a, b, c, d, e] := by
  rcases p with _ | ⟨a, _ | ⟨b, _ | ⟨c, _ | ⟨d, _ | ⟨e, _ | ⟨f, p⟩⟩⟩⟩⟩⟩ <;>
    simp only [List.length_cons, List.length_nil] at h
  · omega
  · omega
  · omega
  · omega
  · omega
  · exact ⟨a, b, c, d, e, rfl⟩
  · omega

lemma length_seven_shape {α : Type} (q : List α) (h : q.length = 7) :
    ∃ a b c d e f g, q = [a, b, c, d, e, f, g] := by
  rcases q with _ | ⟨a, _ | ⟨b, _ | ⟨c, _ | ⟨d, _ | ⟨e, _ | ⟨f, _ | ⟨g, _ | ⟨x, q⟩⟩⟩⟩⟩⟩⟩⟩ <;>
    simp only [List.length_cons, List.length_nil] at h
  · omega
  · omega
  · omega
  · omega
  · omega
  · omega
  · omega
  · exact ⟨a, b, c, d, e, f, g, rfl⟩
  · omega

/-- The claim C4: the sign-up national-id validator accepts exactly the
strings of the shape 5 digits, hyphen, 7 digits, hyphen, 1 digit; in
particular it accepts "42101-1234567-1" and rejects "421011234567",
"42101-123456-1" and the empty string. -/
theorem cnic_validator_spec :
    (∀ s : String, cnicRegexTest s = true ↔ cnicSpecFormat s) ∧
    cnicRegexTest "42101-1234567-1" = true ∧
    cnicRegexTest "421011234567" = false ∧
    cnicRegexTest "42101-123456-1" = false ∧
    cnicRegexTest "" = false := by
  refine ⟨?_, by decide, by decide, by decide, by decide⟩
  intro s
  constructor
  · intro h
    unfold cnicRegexTest at h
    split at h
    · rename_i d1 d2 d3 d4 d5 h1 d6 d7 d8 d9 d10 d11 d12 h2 d13 heq
      simp only [Bool.and_eq_true, decide_eq_true_eq] at h
      obtain ⟨⟨⟨⟨⟨⟨⟨⟨⟨⟨⟨⟨⟨⟨hd1, hd2⟩, hd3⟩, hd4⟩, hd5⟩, hh1⟩, hd6⟩, hd7⟩,
        hd8⟩, hd9⟩, hd10⟩, hd11⟩, hd12⟩, hh2⟩, hd13⟩ := h
      exact ⟨[d1, d2, d3, d4, d5], [d6, d7, d8, d9, d10, d11, d12], d13,
        rfl, rfl,
        by intro x hx; simp only [List.mem_cons, List.not_mem_nil, or_false] at hx
           rcases hx with rfl | rfl | rfl | rfl | rfl <;> assumption,
        by intro x hx; simp only [List.mem_cons, List.not_mem_nil, or_false] at hx
           rcases hx with rfl | rfl | rfl | rfl | rfl | rfl | rfl <;> assumption,
        hd13,
        by rw [heq, hh1, hh2]; rfl⟩
    · simp at h
  · rintro ⟨p, q, c, hp, hq, hpd, hqd, hc, hs⟩
    obtain ⟨a1, a2, a3, a4, a5, rfl⟩ := length_five_shape p hp
    obtain ⟨b1, b2, b3, b4, b5, b6, b7, rfl⟩ := length_seven_shape q hq
    simp only [List.cons_append, List.nil_append] at hs
    simp only [List.forall_mem_cons, List.forall_mem_nil, and_true] at hpd hqd
    unfold cnicRegexTest
    rw [hs]
    simp [hpd.1, hpd.2.1, hpd.2.2.1, hpd.2.2.2.1, hpd.2.2.2.2,
      hqd.1, hqd.2.1, hqd.2.2.1, hqd.2.2.2.1, hqd.2.2.2.2.1,
      hqd.2.2.2.2.2.1, hqd.2.2.2.2.2.2, hc]

/-- The claim C7: every API Gateway operation goes through `apiRequest`; a
response with a non-success HTTP status fails the call with the
server-supplied message, or the generic fallback "An error occurred" when the
server supplies none; a transport failure with no response fails the same way
with the runtime's generic message. -/
theorem apiRequest_error_spec :
    (∀ (T : Type) (body : ApiResponse T),
      apiRequest (FetchOutcome.response false body) =
        Except.error (jsOrOptStr body.message "An error occurred")) ∧
    (∀ (T : Type) (body : ApiResponse T),
      body.message = none →
        apiRequest (FetchOutcome.response false body) =
          Except.error "An error occurred") ∧
    (∀ (T : Type) (msg : String),
      @apiRequest T (FetchOutcome.networkFailure msg) = Except.error msg) ∧
    (∀ o, authApi.signup o = apiRequest o) ∧
    (∀ o, authApi.verifyOtp o = apiRequest o) ∧
    (∀ o, authApi.resendOtp o = apiRequest o) ∧
    (∀ o, authApi.login o = apiRequest o) ∧
    (∀ o, authApi.getProfile o = apiRequest o) ∧
    (∀ o, authApi.getPatients o = apiRequest o) ∧
    (∀ o, authApi.addTreatment o = apiRequest o) ∧
    (∀ o, authApi.deleteTreatment o = apiRequest o) := by
  refine ⟨?_, ?_, ?_, fun _ => rfl, fun _ => rfl, fun _ => rfl, fun _ => rfl,
    fun _ => rfl, fun _ => rfl, fun _ => rfl, fun _ => rfl⟩
  · intro T body
    rfl
  · intro T body hmsg
    simp [apiRequest, handleApiResponse, hmsg, jsOrOptStr]
  · intro T msg
    rfl

/-- Concrete instantiation of `apiRequest_error_spec`. -/
theorem apiRequest_error_spec_witness :
    ((ApiResponse.mk false (some "Invalid credentials") none none :
        ApiResponse Unit).message = some "Invalid credentials" ∧
      apiRequest (FetchOutcome.response false
        (ApiResponse.mk false (some "Invalid credentials") none none :
          ApiResponse Unit)) = Except.error "Invalid credentials") ∧
    ((ApiResponse.mk false none none none : ApiResponse Unit).message = none ∧
      apiRequest (FetchOutcome.response false
        (ApiResponse.mk false none none none : ApiResponse Unit)) =
        Except.error "An error occurred") ∧
    @apiRequest Unit (FetchOutcome.networkFailure "Failed to fetch") =
      Except.error "Failed to fetch" :=
  ⟨⟨rfl, apiRequest_error_spec.1 Unit
      (ApiResponse.mk false (some "Invalid credentials") none none)⟩,
    ⟨rfl, apiRequest_error_spec.2.1 Unit
      (ApiResponse.mk false none none none) rfl⟩,
    apiRequest_error_spec.2.2.1 Unit "Failed to fetch"⟩

/-- The claim C1: in the otp-verification state, submitting calls verifyOtp
only when exactly 6 digits are entered; on verification success the
controller returns to the credential form in sign-in mode without
authenticating (no token stored, no user yielded), clears the OTP input and
shows the confirmation message; on failure it keeps the current view and
surfaces the error message. -/
theorem verifyOtp_flow_spec :
    (∀ s r, s.otpInput.length ≠ 6 → handleVerifyOTP s r = (s, false)) ∧
    (∀ s r, (handleVerifyOTP s r).2 = true → s.otpInput.length = 6) ∧
    (∀ s role resp,
      s.otpEmail ≠ "" → s.otpInput.length = 6 →
      s.selectedRole = some role →
      resp.success = true → resp.data.isSome = true →
      ((handleVerifyOTP s (Except.ok resp)).1.view = AuthView.form ∧
       (handleVerifyOTP s (Except.ok resp)).1.authMode = AuthMode.signin ∧
       (handleVerifyOTP s (Except.ok resp)).1.otpInput = "" ∧
       (handleVerifyOTP s (Except.ok resp)).1.successMsg =
         "Account verified successfully. Please sign in to continue." ∧
       (handleVerifyOTP s (Except.ok resp)).1.storedToken = s.storedToken ∧
       (handleVerifyOTP s (Except.ok resp)).1.yieldedUser = s.yieldedUser)) ∧
    (∀ s role msg,
      s.otpEmail ≠ "" → s.otpInput.length = 6 →
      s.selectedRole = some role →
      ((handleVerifyOTP s (Except.error msg)).1.view = s.view ∧
       (handleVerifyOTP s (Except.error msg)).1.error =
         jsOrStr msg "Verification failed. Please try again." ∧
       (handleVerifyOTP s (Except.error msg)).1.storedToken = s.storedToken ∧
       (handleVerifyOTP s (Except.error msg)).1.yieldedUser = s.yieldedUser)) := by
  refine ⟨?_, ?_, ?_, ?_⟩
  · intro s r h
    simp [handleVerifyOTP, h]
  · intro s r h
    by_contra hlen
    have hres : handleVerifyOTP s r = (s, false) := by
      simp [handleVerifyOTP, hlen]
    rw [hres] at h
    simp at h
  · intro s role resp h1 h2 h3 h4 h5
    obtain ⟨d, hd⟩ := Option.isSome_iff_exists.mp h5
    simp [handleVerifyOTP, h1, h2, h3, hd, h4]
  · intro s role msg h1 h2 h3
    simp [handleVerifyOTP, h1, h2, h3]

/-- Concrete instantiation of `verifyOtp_flow_spec`. -/
theorem verifyOtp_flow_spec_witness :
    (sampleOtpState.otpEmail ≠ "" ∧ sampleOtpState.otpInput.length = 6 ∧
      sampleOtpState.selectedRole = some UserRole.PATIENT ∧
      sampleVerifyResp.success = true ∧ sampleVerifyResp.data.isSome = true) ∧
    ((handleVerifyOTP sampleOtpState (Except.ok sampleVerifyResp)).1.view =
        AuthView.form ∧
      (handleVerifyOTP sampleOtpState (Except.ok sampleVerifyResp)).1.authMode =
        AuthMode.signin ∧
      (handleVerifyOTP sampleOtpState (Except.ok sampleVerifyResp)).1.otpInput =
        "" ∧
      (handleVerifyOTP sampleOtpState (Except.ok sampleVerifyResp)).1.successMsg =
        "Account verified successfully. Please sign in to continue." ∧
      (handleVerifyOTP sampleOtpState (Except.ok sampleVerifyResp)).1.storedToken =
        sampleOtpState.storedToken ∧
      (handleVerifyOTP sampleOtpState (Except.ok sampleVerifyResp)).1.yieldedUser =
        sampleOtpState.yieldedUser) :=
  ⟨⟨by decide, by decide, rfl, rfl, rfl⟩,
    verifyOtp_flow_spec.2.2.1 sampleOtpState UserRole.PATIENT sampleVerifyResp
      (by decide) (by decide) rfl rfl rfl⟩

/-- The claim C2: a sign-up submission that passes local validation and whose
signup call succeeds leaves the controller in the otp-verification state with
the submitted email retained and a 300-second countdown set. -/
theorem signup_success_transition :
    ∀ s role lr resp,
      s.selectedRole = some role → s.authMode = AuthMode.signup →
      s.name ≠ "" → s.email ≠ "" → s.cnic ≠ "" → s.password ≠ "" →
      cnicRegexTest s.cnic = true → ¬ s.password.length < 6 →
      resp.success = true →
      ((handleAction s lr (Except.ok resp)).state.view =
          AuthView.otpVerification ∧
       (handleAction s lr (Except.ok resp)).state.otpEmail = s.email ∧
       (handleAction s lr (Except.ok resp)).state.resendCooldown = 300 ∧
       (handleAction s lr (Except.ok resp)).calledSignup = true) := by
  intro s role lr resp hrole hmode hn he hc hp hre hlen hsuc
  simp [handleAction, hrole, hmode, hn, he, hc, hp, hre, hlen, hsuc]

/-- Concrete instantiation of `signup_success_transition`. -/
theorem signup_success_transition_witness :
    (sampleSignupState.selectedRole = some UserRole.PATIENT ∧
      sampleSignupState.authMode = AuthMode.signup ∧
      cnicRegexTest sampleSignupState.cnic = true ∧
      ¬ sampleSignupState.password.length < 6 ∧
      sampleSignupResp.success = true) ∧
    ((handleAction sampleSignupState (Except.error "unused")
        (Except.ok sampleSignupResp)).state.view = AuthView.otpVerification ∧
      (handleAction sampleSignupState (Except.error "unused")
        (Except.ok sampleSignupResp)).state.otpEmail =
          sampleSignupState.email ∧
      (handleAction sampleSignupState (Except.error "unused")
        (Except.ok sampleSignupResp)).state.resendCooldown = 300 ∧
      (handleAction sampleSignupState (Except.error "unused")
        (Except.ok sampleSignupResp)).calledSignup = true) :=
  ⟨⟨rfl, rfl, by decide, by decide, rfl⟩,
    signup_success_transition sampleSignupState UserRole.PATIENT
      (Except.error "unused") sampleSignupResp rfl rfl (by decide) (by decide)
      (by decide) (by decide) (by decide) (by decide) rfl⟩

/-- The claim C3: a sign-up submission with a missing required field, an
ill-formatted national id, or a password shorter than 6 characters is blocked
with its specific error message, the view does not change, and the signup
network call is never made. -/
theorem signup_validation_blocks :
    ∀ s role lr sr,
      s.selectedRole = some role → s.authMode = AuthMode.signup →
      (((s.name = "" ∨ s.email = "" ∨ s.cnic = "" ∨ s.password = "") →
        ((handleAction s lr sr).state.error = "All fields are required." ∧
         (handleAction s lr sr).calledSignup = false ∧
         (handleAction s lr sr).state.view = s.view)) ∧
       ((s.name ≠ "" → s.email ≠ "" → s.cnic ≠ "" → s.password ≠ "" →
         cnicRegexTest s.cnic = false →
        ((handleAction s lr sr).state.error =
           "CNIC must be in format XXXXX-XXXXXXX-X" ∧
         (handleAction s lr sr).calledSignup = false ∧
         (handleAction s lr sr).state.view = s.view))) ∧
       ((s.name ≠ "" → s.email ≠ "" → s.cnic ≠ "" → s.password ≠ "" →
         cnicRegexTest s.cnic = true → s.password.length < 6 →
        ((handleAction s lr sr).state.error =
           "Password must be at least 6 characters long." ∧
         (handleAction s lr sr).calledSignup = false ∧
         (handleAction s lr sr).state.view = s.view))) ∧
       ((s.name = "" ∨ s.email = "" ∨ s.cnic = "" ∨ s.password = "" ∨
         cnicRegexTest s.cnic = false ∨ s.password.length < 6) →
        (handleAction s lr sr).calledSignup = false)) := by
  intro s role lr sr hrole hmode
  refine ⟨?_, ?_, ?_, ?_⟩
  · intro h
    rcases h with h | h | h | h <;> simp [handleAction, hrole, hmode, h]
  · intro hn he hc hp hre
    simp [handleAction, hrole, hmode, hn, he, hc, hp, hre]
  · intro hn he hc hp hre hlen
    simp [handleAction, hrole, hmode, hn, he, hc, hp, hre, hlen]
  · intro h
    by_cases h1 : s.name = "" ∨ s.email = "" ∨ s.cnic = "" ∨ s.password = ""
    · rcases h1 with h1 | h1 | h1 | h1 <;> simp [handleAction, hrole, hmode, h1]
    · push_neg at h1
      obtain ⟨hn, he, hc, hp⟩ := h1
      by_cases h2 : cnicRegexTest s.cnic = false
      · simp [handleAction, hrole, hmode, hn, he, hc, hp, h2]
      · have h2t : cnicRegexTest s.cnic = true := by
          cases hb : cnicRegexTest s.cnic
          · exact absurd hb h2
          · rfl
        have h3 : s.password.length < 6 := by
          rcases h with h | h | h | h | h | h
          · exact absurd h hn
          · exact absurd h he
          · exact absurd h hc
          · exact absurd h hp
          · exact absurd h h2
          · exact h
        simp [handleAction, hrole, hmode, hn, he, hc, hp, h2t, h3]

/-- Concrete instantiations of `signup_validation_blocks`: an empty name, an
unhyphenated national id, and a 3-character password are each blocked with
their message and without a signup call. -/
theorem signup_validation_blocks_witness :
    ((handleAction { sampleSignupState with name := "" }
        (Except.error "unused") (Except.ok sampleSignupResp)).state.error =
          "All fields are required." ∧
      (handleAction { sampleSignupState with name := "" }
        (Except.error "unused") (Except.ok sampleSignupResp)).calledSignup =
          false) ∧
    ((handleAction { sampleSignupState with cnic := "421011234567" }
        (Except.error "unused") (Except.ok sampleSignupResp)).state.error =
          "CNIC must be in format XXXXX-XXXXXXX-X" ∧
      (handleAction { sampleSignupState with cnic := "421011234567" }
        (Except.error "unused") (Except.ok sampleSignupResp)).calledSignup =
          false) ∧
    ((handleAction { sampleSignupState with password := "abc" }
        (Except.error "unused") (Except.ok sampleSignupResp)).state.error =
          "Password must be at least 6 characters long." ∧
      (handleAction { sampleSignupState with password := "abc" }
        (Except.error "unused") (Except.ok sampleSignupResp)).calledSignup =
          false) :=
  ⟨(fun x => ⟨x.1, x.2.1⟩)
      ((signup_validation_blocks { sampleSignupState with name := "" }
        UserRole.PATIENT (Except.error "unused") (Except.ok sampleSignupResp)
        rfl rfl).1 (Or.inl rfl)),
    (fun x => ⟨x.1, x.2.1⟩)
      ((signup_validation_blocks
        { sampleSignupState with cnic := "421011234567" }
        UserRole.PATIENT (Except.error "unused") (Except.ok sampleSignupResp)
        rfl rfl).2.1 (by decide) (by decide) (by decide) (by decide)
        (by decide)),
    (fun x => ⟨x.1, x.2.1⟩)
      ((signup_validation_blocks { sampleSignupState with password := "abc" }
        UserRole.PATIENT (Except.error "unused") (Except.ok sampleSignupResp)
        rfl rfl).2.2.1 (by decide) (by decide) (by decide) (by decide)
        (by decide) (by decide))⟩

/-- The claim C5: resend is a no-op while the countdown is positive; with the
otp email set (always the case in the otp-verification view, which renders
only when `otpEmail` is non-empty) the resend call is made exactly when the
countdown has reached 0; a successful resend resets the countdown to 120 and
clears the entered code. -/
theorem resendOtp_spec :
    (∀ s r, 0 < s.resendCooldown → handleResendOTP s r = (s, false)) ∧
    (∀ s r, s.otpEmail ≠ "" →
      ((handleResendOTP s r).2 = true ↔ s.resendCooldown = 0)) ∧
    (∀ s resp, s.otpEmail ≠ "" → s.resendCooldown = 0 → resp.success = true →
      ((handleResendOTP s (Except.ok resp)).1.resendCooldown = 120 ∧
       (handleResendOTP s (Except.ok resp)).1.otpInput = "")) := by
  refine ⟨?_, ?_, ?_⟩
  · intro s r h
    simp [handleResendOTP, h]
  · intro s r he
    constructor
    · intro hcall
      by_contra hne
      have hpos : 0 < s.resendCooldown := Nat.pos_of_ne_zero hne
      have hres : handleResendOTP s r = (s, false) := by
        simp [handleResendOTP, hpos]
      rw [hres] at hcall
      simp at hcall
    · intro h0
      rcases r with msg | resp
      · simp [handleResendOTP, he, h0]
      · by_cases hs : resp.success = true
        · simp [handleResendOTP, he, h0, hs]
        · simp [handleResendOTP, he, h0, hs]
  · intro s resp he h0 hs
    simp [handleResendOTP, he, h0, hs]

/-- Concrete instantiation of `resendOtp_spec`: with a positive countdown the
state is untouched, and at countdown 0 a successful resend resets to 120 and
clears the code. -/
theorem resendOtp_spec_witness :
    (0 < ({ sampleOtpState with resendCooldown := 120 } : AuthState).resendCooldown ∧
      handleResendOTP { sampleOtpState with resendCooldown := 120 }
        (Except.ok sampleOkUnit) =
        ({ sampleOtpState with resendCooldown := 120 }, false)) ∧
    (sampleOtpState.otpEmail ≠ "" ∧ sampleOtpState.resendCooldown = 0 ∧
      sampleOkUnit.success = true ∧
      (handleResendOTP sampleOtpState (Except.ok sampleOkUnit)).1.resendCooldown =
        120 ∧
      (handleResendOTP sampleOtpState (Except.ok sampleOkUnit)).1.otpInput = "") :=
  ⟨⟨by decide,
      resendOtp_spec.1 { sampleOtpState with resendCooldown := 120 }
        (Except.ok sampleOkUnit) (by decide)⟩,
    by decide, rfl, rfl,
    (resendOtp_spec.2.2 sampleOtpState sampleOkUnit (by decide) rfl rfl).1,
    (resendOtp_spec.2.2 sampleOtpState sampleOkUnit (by decide) rfl rfl).2⟩

/-- The claim C6: when bootstrap finds a persisted token but the getProfile
call fails, the token is removed, no message is surfaced (the alert list is
untouched and App has no other user-facing error channel on this path), and
the state resolves to the unauthenticated view (no current user, loading
finished). -/
theorem initializeAuth_invalid_token :
    ∀ s t msg pr,
      s.token = some t → s.currentUser = none →
      ((initializeAuth s (Except.error msg) pr).token = none ∧
       (initializeAuth s (Except.error msg) pr).currentUser = none ∧
       (initializeAuth s (Except.error msg) pr).alerts = s.alerts ∧
       (initializeAuth s (Except.error msg) pr).patients = s.patients ∧
       (initializeAuth s (Except.error msg) pr).isLoading = false) := by
  intro s t msg pr ht hu
  simp [initializeAuth, ht, hu]

/-- Concrete instantiation of `initializeAuth_invalid_token`. -/
theorem initializeAuth_invalid_token_witness :
    ((initialAppState (some "stale")).token = some "stale" ∧
      (initialAppState (some "stale")).currentUser = none) ∧
    ((initializeAuth (initialAppState (some "stale"))
        (Except.error "Invalid token") (Except.error "unused")).token = none ∧
      (initializeAuth (initialAppState (some "stale"))
        (Except.error "Invalid token") (Except.error "unused")).currentUser =
          none ∧
      (initializeAuth (initialAppState (some "stale"))
        (Except.error "Invalid token") (Except.error "unused")).alerts =
          (initialAppState (some "stale")).alerts ∧
      (initializeAuth (initialAppState (some "stale"))
        (Except.error "Invalid token") (Except.error "unused")).patients =
          (initialAppState (some "stale")).patients ∧
      (initializeAuth (initialAppState (some "stale"))
        (Except.error "Invalid token") (Except.error "unused")).isLoading =
          false) :=
  ⟨⟨rfl, rfl⟩,
    initializeAuth_invalid_token (initialAppState (some "stale")) "stale"
      "Invalid token" (Except.error "unused") rfl rfl⟩

/-- The claim C8: deleteTreatment is a no-op unless the current user has the
patient role; on server acknowledgement the patient with the given id has
exactly the treatments carrying the given treatment id removed (all other
treatments, all other fields, and every other patient are unchanged), and the
rest of the app state is untouched. -/
theorem deleteTreatment_spec :
    (∀ s pid tid r, s.currentUser = none →
      deleteTreatment s pid tid r = (s, false)) ∧
    (∀ s pid tid r u, s.currentUser = some u → u.role ≠ UserRole.PATIENT →
      deleteTreatment s pid tid r = (s, false)) ∧
    (∀ s pid tid resp u, s.currentUser = some u →
      u.role = UserRole.PATIENT → resp.success = true →
      ((deleteTreatment s pid tid (Except.ok resp)).1.patients =
          s.patients.map (updatePatient pid tid) ∧
       (deleteTreatment s pid tid (Except.ok resp)).1.currentUser =
          s.currentUser ∧
       (deleteTreatment s pid tid (Except.ok resp)).1.token = s.token ∧
       (deleteTreatment s pid tid (Except.ok resp)).1.doctors = s.doctors ∧
       (deleteTreatment s pid tid (Except.ok resp)).1.alerts = s.alerts)) ∧
    (∀ pid tid p, p.id ≠ pid → updatePatient pid tid p = p) ∧
    (∀ pid tid p, p.id = pid →
      ((updatePatient pid tid p).treatments =
         p.treatments.filter (fun t => t.id != tid) ∧
       (updatePatient pid tid p).id = p.id ∧
       (updatePatient pid tid p).role = p.role ∧
       (updatePatient pid tid p).name = p.name ∧
       (updatePatient pid tid p).email = p.email ∧
       (updatePatient pid tid p).cnic = p.cnic ∧
       (updatePatient pid tid p).isVerified = p.isVerified ∧
       (updatePatient pid tid p).medicalHistory = p.medicalHistory)) ∧
    (∀ pid tid p t, t ∈ (updatePatient pid tid p).treatments ↔
      (t ∈ p.treatments ∧ (p.id = pid → t.id ≠ tid))) := by
  refine ⟨?_, ?_, ?_, ?_, ?_, ?_⟩
  · intro s pid tid r h
    simp [deleteTreatment, h]
  · intro s pid tid r u hu hrole
    simp [deleteTreatment, hu, hrole]
  · intro s pid tid resp u hu hrole hs
    simp [deleteTreatment, hu, hrole, hs, updatePatient]
  · intro pid tid p h
    simp [updatePatient, h]
  · intro pid tid p h
    simp [updatePatient, h]
  · intro pid tid p t
    by_cases h : p.id = pid
    · simp [updatePatient, h, List.mem_filter, bne_iff_ne]
    · simp [updatePatient, h]

/-- Concrete instantiation of `deleteTreatment_spec`: the logged-in patient
deletes treatment "t1" of patient "p1"; "t1" disappears from p1, "t2"
survives, and p2 is untouched. -/
theorem deleteTreatment_spec_witness :
    (sampleAppState.currentUser = some samplePatientUser ∧
      samplePatientUser.role = UserRole.PATIENT ∧
      sampleOkUnit.success = true) ∧
    ((deleteTreatment sampleAppState "p1" "t1" (Except.ok sampleOkUnit)).1.patients =
        sampleAppState.patients.map (updatePatient "p1" "t1") ∧
      (deleteTreatment sampleAppState "p1" "t1" (Except.ok sampleOkUnit)).1.currentUser =
        sampleAppState.currentUser) ∧
    (updatePatient "p1" "t1" samplePatient2 = samplePatient2 ∧
      (updatePatient "p1" "t1" samplePatient1).treatments = [sampleTreatment2] ∧
      (updatePatient "p1" "t1" samplePatient1).name = samplePatient1.name) :=
  ⟨⟨rfl, rfl, rfl⟩,
    ⟨((deleteTreatment_spec.2.2.1 sampleAppState "p1" "t1" sampleOkUnit
        samplePatientUser rfl rfl rfl).1),
      ((deleteTreatment_spec.2.2.1 sampleAppState "p1" "t1" sampleOkUnit
        samplePatientUser rfl rfl rfl).2.1)⟩,
    ⟨deleteTreatment_spec.2.2.2.1 "p1" "t1" samplePatient2 (by decide),
      by decide, by decide⟩⟩

/-- The claim C9: the doctor's patient search matches a stored cnic exactly
or hyphen-insensitively (the query "351234567" matches a stored
"35-1234567"); an empty or whitespace-only query yields the empty-query
message, which differs from the not-found message of an unmatched non-empty
query; on a match the matched patient becomes selected and the error is
cleared. -/
theorem handleSearch_spec :
    (∀ ps s, jsTrim s.searchCnic = "" →
      ((handleSearch ps s).searchError = "Please enter a CNIC number" ∧
       (handleSearch ps s).selectedPatientId = s.selectedPatientId)) ∧
    (∀ ps s p, jsTrim s.searchCnic ≠ "" →
      ps.find? (cnicMatches (jsTrim s.searchCnic)) = some p →
      ((handleSearch ps s).selectedPatientId = some p.id ∧
       (handleSearch ps s).searchError = "")) ∧
    (∀ ps s, jsTrim s.searchCnic ≠ "" →
      ps.find? (cnicMatches (jsTrim s.searchCnic)) = none →
      (handleSearch ps s).searchError =
        "No patient found with this CNIC. Please check and try again.") ∧
    ("Please enter a CNIC number" ≠
      "No patient found with this CNIC. Please check and try again.") ∧
    (∀ p : PatientProfile, p.cnic = some "35-1234567" →
      cnicMatches "351234567" p = true) ∧
    (∀ q p, cnicMatches q p = true →
      (p.cnic = some q ∨ p.cnic.map replaceHyphens = some (replaceHyphens q))) := by
  refine ⟨?_, ?_, ?_, by decide, ?_, ?_⟩
  · intro ps s h
    simp [handleSearch, h]
  · intro ps s p h hf
    simp [handleSearch, h, hf]
  · intro ps s h hf
    simp [handleSearch, h, hf]
  · intro p h
    simp [cnicMatches, h, replaceHyphens]
  · intro q p h
    simp only [cnicMatches, Bool.or_eq_true, beq_iff_eq] at h
    exact h

/-- Concrete instantiation of `handleSearch_spec`: a whitespace-only query
reports the empty-query message; the hyphen-less query "351234567" selects
the patient stored with cnic "35-1234567"; an unmatched query reports the
not-found message. -/
theorem handleSearch_spec_witness :
    (jsTrim "  " = "" ∧
      (handleSearch [samplePatient2]
        { selectedPatientId := none, searchCnic := "  ", searchError := "" }).searchError =
          "Please enter a CNIC number") ∧
    (jsTrim "351234567" ≠ "" ∧
      [samplePatient2].find? (cnicMatches (jsTrim "351234567")) = some samplePatient2 ∧
      (handleSearch [samplePatient2]
        { selectedPatientId := none, searchCnic := "351234567",
          searchError := "" }).selectedPatientId = some samplePatient2.id ∧
      (handleSearch [samplePatient2]
        { selectedPatientId := none, searchCnic := "351234567",
          searchError := "" }).searchError = "") ∧
    ((handleSearch []
        { selectedPatientId := none, searchCnic := "99999-9999999-9",
          searchError := "" }).searchError =
          "No patient found with this CNIC. Please check and try again.") :=
  ⟨⟨by decide,
      (handleSearch_spec.1 [samplePatient2]
        { selectedPatientId := none, searchCnic := "  ", searchError := "" }
        (by decide)).1⟩,
    ⟨by decide, by decide,
      (handleSearch_spec.2.1 [samplePatient2]
        { selectedPatientId := none, searchCnic := "351234567",
          searchError := "" } samplePatient2 (by decide) (by decide)).1,
      (handleSearch_spec.2.1 [samplePatient2]
        { selectedPatientId := none, searchCnic := "351234567",
          searchError := "" } samplePatient2 (by decide) (by decide)).2⟩,
    handleSearch_spec.2.2.1 []
      { selectedPatientId := none, searchCnic := "99999-9999999-9",
        searchError := "" } (by decide) (by decide)⟩

lemma splitDot_ne_nil (cs : List Char) : splitDot cs ≠ [] := by
  induction cs with
  | nil => simp [splitDot]
  | cons c rest ih =>
    unfold splitDot
    cases hsplit : splitDot rest with
    | nil => simp
    | cons seg segs =>
      by_cases hc : c = '.'
      · simp [hc]
      · simp [hc]

lemma splitDot_no_dot (cs : List Char) (h : '.' ∉ cs) :
    splitDot cs = [cs] := by
  induction cs with
  | nil => rfl
  | cons c rest ih =>
    have hc : ¬ c = '.' := by
      intro hh
      refine h ?_
      rw [← hh]
      exact List.mem_cons_self c rest
    have hr : '.' ∉ rest := fun hm => h (List.mem_cons_of_mem c hm)
    unfold splitDot
    rw [ih hr]
    simp [hc]

lemma toUpperCase_eq_empty_iff (s : String) : toUpperCase s = "" ↔ s = "" := by
  constructor
  · intro h
    have hdata : s.data.map Char.toUpper = [] := congrArg String.data h
    have hnil : s.data = [] := List.map_eq_nil_iff.mp hdata
    cases s with
    | mk l =>
      simp only at hnil
      rw [hnil]
  · intro h
    rw [h]
    rfl

/-- Counterexample to the claim C10 as stated: for the file name
"scan.unknown" the derived label is "UNKNOWN" even though the text after the
last '.' is the non-empty segment "unknown" — so "UNKNOWN" is not produced
only when that trailing text is empty. -/
theorem fileTypeLabel_unknown_not_only_empty :
    fileTypeLabel "scan.unknown" = "UNKNOWN" ∧
    lastSegment "scan.unknown" = "unknown" ∧
    ("unknown" : String) ≠ "" := by
  refine ⟨?_, ?_, ?_⟩ <;> decide

/-- The amended claim C10: for every attached file, the derived fileType
label equals the uppercased text after the last '.' whenever that text is
non-empty; a non-empty file name containing no '.' yields the entire name
uppercased; and the label "UNKNOWN" is produced exactly when the trailing
text is empty or itself uppercases to "UNKNOWN". -/
theorem fileTypeLabel_spec :
    ∀ fileName : String,
      ((lastSegment fileName ≠ "" →
        fileTypeLabel fileName = toUpperCase (lastSegment fileName)) ∧
       ('.' ∉ fileName.data → fileName ≠ "" →
        fileTypeLabel fileName = toUpperCase fileName) ∧
       (fileTypeLabel fileName = "UNKNOWN" ↔
        (lastSegment fileName = "" ∨
          toUpperCase (lastSegment fileName) = "UNKNOWN"))) := by
  intro fileName
  refine ⟨?_, ?_, ?_⟩
  · intro h
    have hup : ¬ toUpperCase (lastSegment fileName) = "" := by
      intro hh
      exact h ((toUpperCase_eq_empty_iff _).mp hh)
    simp [fileTypeLabel, hup]
  · intro hdot hne
    have hls : lastSegment fileName = fileName := by
      unfold lastSegment
      rw [splitDot_no_dot _ hdot]
      rfl
    have hup : ¬ toUpperCase fileName = "" := by
      intro hh
      exact hne ((toUpperCase_eq_empty_iff _).mp hh)
    simp [fileTypeLabel, hls, hup]
  · by_cases hup : toUpperCase (lastSegment fileName) = ""
    · constructor
      · intro _
        exact Or.inl ((toUpperCase_eq_empty_iff _).mp hup)
      · intro _
        simp [fileTypeLabel, hup]
    · constructor
      · intro h
        simp [fileTypeLabel, hup] at h
        exact Or.inr h
      · intro h
        rcases h with h | h
        · exact absurd ((toUpperCase_eq_empty_iff _).mpr h) hup
        · simp [fileTypeLabel, hup, h]

/-- Concrete instantiations of `fileTypeLabel_spec`: "report.pdf" yields
"PDF", the dot-free name "readme" yields "README", and "archive." (empty
trailing text) yields "UNKNOWN". -/
theorem fileTypeLabel_spec_witness :
    (lastSegment "report.pdf" = "pdf" ∧ fileTypeLabel "report.pdf" = "PDF") ∧
    (('.' ∉ ("readme" : String).data) ∧ fileTypeLabel "readme" = "README") ∧
    (lastSegment "archive." = "" ∧ fileTypeLabel "archive." = "UNKNOWN") :=
  ⟨⟨by decide, by
      have h := ((fileTypeLabel_spec "report.pdf").1 (by decide))
      rw [h]
      decide⟩,
    ⟨by decide, by
      have h := ((fileTypeLabel_spec "readme").2.1 (by decide) (by decide))
      rw [h]
      decide⟩,
    ⟨by decide, by
      have h := ((fileTypeLabel_spec "archive.").2.2.mpr (Or.inl (by decide)))
      exact h⟩⟩
